/-
Verification of the message-webhook service (app/storage.py, app/main.py,
app/metrics.py, app/models.py) against its specification.

The SQLite-backed store is shallowly embedded: the `messages` table is a
`List Row`, SQL statements are translated to list operations following the
documented SQLite semantics of the concrete statements in the source, and
Python `Optional[str]` values are `Option String`.
-/

import Mathlib

namespace Lyftr

/--
A persisted row of the `messages` table (models.py, CREATE_MESSAGES_SQL):
columns `message_id` (TEXT PRIMARY KEY), `from_msisdn`/`to_msisdn`/`ts`/
`created_at` (TEXT NOT NULL) and `text` (TEXT, nullable).
`message_id` is taken as a non-null string: its single producer
(`main.webhook`) always passes the validated `msg.message_id`.
-/
structure Row where
  message_id : String
  from_msisdn : String
  to_msisdn : String
  ts : String
  text : Option String
  created_at : String
deriving DecidableEq, Repr

/--
The raw argument tuple of `Storage.insert_message` (storage.py:54-62).
At runtime Python may pass `None` for any of the NOT NULL columns, which
SQLite rejects with an `IntegrityError`; those four columns are therefore
`Option String` here.  `text` is nullable in the schema.
-/
structure RawInsert where
  message_id : String
  from_msisdn : Option String
  to_msisdn : Option String
  ts : Option String
  text : Option String
  created_at : Option String
deriving DecidableEq, Repr

/-- NOT NULL constraint of CREATE_MESSAGES_SQL: `from_msisdn`, `to_msisdn`,
`ts` and `created_at` must all be non-null for the INSERT to succeed. -/
def notNullViolation (m : RawInsert) : Bool :=
  m.from_msisdn.isNone || m.to_msisdn.isNone || m.ts.isNone || m.created_at.isNone

/-- PRIMARY KEY constraint of CREATE_MESSAGES_SQL: the INSERT fails when a
row with the same `message_id` already exists. -/
def pkViolation (tbl : List Row) (m : RawInsert) : Bool :=
  tbl.any (fun r => r.message_id == m.message_id)

/-- The INSERT of storage.py:67-77 raises `IntegrityError` exactly when a
constraint of the schema is violated: duplicate primary key or a NULL in a
NOT NULL column. -/
def integrityViolation (tbl : List Row) (m : RawInsert) : Bool :=
  pkViolation tbl m || notNullViolation m

/-- The row stored by a successful INSERT (all NOT NULL columns present;
the `getD` defaults are never used on the success path). -/
def rowOfRaw (m : RawInsert) : Row :=
  ⟨m.message_id, m.from_msisdn.getD "", m.to_msisdn.getD "",
   m.ts.getD "", m.text, m.created_at.getD ""⟩

/-- The tuple a validated message contributes to the INSERT
(main.py:191-198 passes every NOT NULL column as a non-null string). -/
def rawOfRow (r : Row) : RawInsert :=
  ⟨r.message_id, some r.from_msisdn, some r.to_msisdn, some r.ts, r.text,
   some r.created_at⟩

/-- A non-`IntegrityError` backing-store failure (e.g. `OperationalError`
when the database is unreachable); `insert_message` does not catch it. -/
inductive StoreError where
  | unavailable
deriving DecidableEq, Repr

/-- The body of `Storage.insert_message` when the backing store is
reachable (storage.py:79-88): execute the INSERT; `IntegrityError` is
caught and mapped to `"duplicate"` with the table unchanged, success
commits the new row and returns `"created"`. -/
def insert_message_ok (tbl : List Row) (m : RawInsert) : List Row × String :=
  if integrityViolation tbl m then (tbl, "duplicate")
  else (tbl ++ [rowOfRaw m], "created")

/-- `Storage.insert_message` (storage.py:54-88).  `storeUp` models whether
the backing store is reachable: when it is not, the exception raised by
`aiosqlite.connect`/`execute` is not an `IntegrityError`, so the
`try`/`except` block does not catch it and it propagates to the caller. -/
def insert_message (storeUp : Bool) (tbl : List Row) (m : RawInsert) :
    Except StoreError (List Row × String) :=
  if storeUp then .ok (insert_message_ok tbl m)
  else .error .unavailable

/-- Number of stored rows keyed by a given `message_id`. -/
def countId (tbl : List Row) (id : String) : Nat :=
  tbl.countP (fun r => r.message_id == id)

/-- Python truthiness of an `Optional[str]` value: `None` and `""` are
falsy, every other string is truthy (used by `if from_filter:`,
`if since:`, `if q:` in storage.py and `if not x_signature:` in main.py). -/
def pyTruthy : Option String → Bool
  | none => false
  | some s => !(s == "")

/-- The SQL-side WHERE clause built in storage.py:110-122: exact match on
`from_msisdn` when `from_filter` is truthy, and `ts >= since` when `since`
is truthy (SQLite TEXT comparison is bytewise, which on UTF-8 strings
agrees with code-point lexicographic order). -/
def sqlMatch (from_filter since : Option String) (r : Row) : Bool :=
  (if pyTruthy from_filter then r.from_msisdn == from_filter.getD "" else true) &&
  (if pyTruthy since then decide (since.getD "" ≤ r.ts) else true)

/-- The ordering `ORDER BY ts ASC, message_id ASC` of storage.py:134. -/
def rowLe (a b : Row) : Prop :=
  a.ts < b.ts ∨ (a.ts = b.ts ∧ a.message_id ≤ b.message_id)

instance : DecidableRel rowLe := fun a b => by
  unfold rowLe; infer_instance

/-- The sorted result set of the SELECT in storage.py:125-141.  SQL `ORDER
BY` returns some sorted permutation of the result; since `(ts, message_id)`
never ties across distinct rows of a real table (`message_id` is the
primary key), every sort produces the same list and `mergeSort` is a
faithful rendering. -/
def sortRows (l : List Row) : List Row :=
  l.mergeSort (fun a b => decide (rowLe a b))

/-- Python `str.lower()`, modelled character-wise. -/
def pyLower (s : String) : String :=
  ⟨s.data.map Char.toLower⟩

/-- Whether the second list starts with the first (character lists). -/
def startsWithChars : List Char → List Char → Bool
  | [], _ => true
  | _ :: _, [] => false
  | a :: as, b :: bs => a == b && startsWithChars as bs

/-- Python substring test `needle in hay` on character lists. -/
def containsChars (needle : List Char) : List Char → Bool
  | [] => needle.isEmpty
  | b :: bs => startsWithChars needle (b :: bs) || containsChars needle bs

/-- The Python-side text filter of storage.py:144-149:
`q.lower() in (row text or "").lower()`. -/
def qMatch (q : String) (r : Row) : Bool :=
  containsChars (pyLower q).data (pyLower (r.text.getD "")).data

/-- The `rows` fetched by the SELECT of storage.py:125-141: SQL-side
filters applied, fully ordered, before the Python-side `q` filter. -/
def sqlRows (tbl : List Row) (from_filter since : Option String) : List Row :=
  sortRows (tbl.filter (sqlMatch from_filter since))

/-- The `rows` after the Python-side `q` filter of storage.py:144-149
(applied only when `q` is truthy). -/
def qRows (tbl : List Row) (from_filter since q : Option String) : List Row :=
  if pyTruthy q then (sqlRows tbl from_filter since).filter (qMatch (q.getD ""))
  else sqlRows tbl from_filter since

/-- `Storage.list_messages` (storage.py:93-156): SQL-filtered rows are
fetched fully ordered, the `q` substring filter is applied in Python,
`total` is the length of the filtered list, and pagination
`rows[offset : offset + limit]` is applied last. -/
def list_messages (tbl : List Row) (limit offset : Nat)
    (from_filter since q : Option String) : List Row × Nat :=
  (((qRows tbl from_filter since q).drop offset).take limit,
   (qRows tbl from_filter since q).length)

/-- The grouped sender counts of the `stats` top-senders query
(storage.py:180-186): one `(from_msisdn, COUNT(*))` pair per distinct
sender. -/
def senderCounts (tbl : List Row) : List (String × Nat) :=
  ((tbl.map Row.from_msisdn).dedup).map
    (fun s => (s, tbl.countP (fun r => r.from_msisdn == s)))

/-- Counts are non-increasing along the list (`ORDER BY c DESC`). -/
def countsSortedDesc (l : List (String × Nat)) : Prop :=
  l.Pairwise (fun a b => b.2 ≤ a.2)

/-- Admissible outputs of the top-senders query of storage.py:180-186:
`GROUP BY from_msisdn ORDER BY c DESC LIMIT 10`.  SQLite guarantees the
rows are sorted by `c` descending but leaves the relative order of rows
with equal `c` unspecified (the query has no secondary sort key), so the
output is the 10-prefix of SOME count-sorted permutation of the grouped
counts. -/
def topSendersAdmissible (tbl : List Row) (out : List (String × Nat)) : Prop :=
  ∃ l, List.Perm l (senderCounts tbl) ∧ countsSortedDesc l ∧ out = l.take 10

/-- Modelled from the spec: "the 10 senders with the highest message
counts, ordered by count descending then by sender identifier ascending
for ties, each with its count".  Used only to compare the claimed ordering
with the admissible behaviour of the SQL in storage.py. -/
def specTopSenders (tbl : List Row) : List (String × Nat) :=
  ((senderCounts tbl).mergeSort
    (fun a b => decide (b.2 < a.2) || (decide (a.2 = b.2) && decide (a.1 ≤ b.1)))).take 10

/-- The `Metrics` collector state (metrics.py:25-36): per-(path, status)
HTTP counters, per-outcome webhook counters, and the latency buckets keyed
by `"100"`, `"500"`, `"+Inf"`.  `defaultdict(int)` maps are modelled as
total functions that are zero off the touched keys. -/
structure Metrics where
  http_requests : String × String → Nat
  webhook_requests : String → Nat
  latency_buckets : String → Nat

/-- A fresh collector: all counters zero (metrics.py:25-36). -/
def initMetrics : Metrics :=
  ⟨fun _ => 0, fun _ => 0, fun _ => 0⟩

/-- `Metrics.inc_http` (metrics.py:42-47). -/
def inc_http (path status : String) (m : Metrics) : Metrics :=
  { m with http_requests := fun k =>
      if k = (path, status) then m.http_requests k + 1 else m.http_requests k }

/-- `Metrics.inc_webhook` (metrics.py:53-62): bump the counter keyed by
the outcome label. -/
def inc_webhook (result : String) (m : Metrics) : Metrics :=
  { m with webhook_requests := fun k =>
      if k = result then m.webhook_requests k + 1 else m.webhook_requests k }

/-- The bucket selected by `observe_latency`'s branch on the thresholds
100 and 500 (metrics.py:76-81).  Latency values are modelled as rationals
(the Python float comparisons at these thresholds are exact order
comparisons). -/
def latencyBucket (ms : ℚ) : String :=
  if ms ≤ 100 then "100" else if ms ≤ 500 then "500" else "+Inf"

/-- `Metrics.observe_latency` (metrics.py:68-81): increment the single
bucket selected by the thresholds. -/
def observe_latency (ms : ℚ) (m : Metrics) : Metrics :=
  { m with latency_buckets := fun k =>
      if k = latencyBucket ms then m.latency_buckets k + 1 else m.latency_buckets k }

/-- The four latency samples of `render_prometheus` (metrics.py:114-123),
in line order: `le="100"`, `le="500"`, `le="+Inf"`, and the unlabeled
count line.  The rendered numbers are cumulative sums of the buckets. -/
def render_latency (m : Metrics) : Nat × Nat × Nat × Nat :=
  let count_100 := m.latency_buckets "100"
  let count_500 := m.latency_buckets "500"
  let count_inf := m.latency_buckets "+Inf"
  (count_100, count_100 + count_500, count_100 + count_500 + count_inf,
   count_100 + count_500 + count_inf)

/-- The collector state after a sequence of `observe_latency` calls
starting from a fresh collector. -/
def foldObserve (obs : List ℚ) : Metrics :=
  obs.foldl (fun m x => observe_latency x m) initMetrics

/-- The validated message produced by `WebhookMessage.parse_raw`
(schemas.py): `ts` is kept as the serialized ISO-8601 string that
main.py:195 passes to the store. -/
structure Msg where
  message_id : String
  from_ : String
  to_ : String
  ts : String
  text : Option String

/-- The mutable state touched by the webhook handler: the stored table
and the metrics collector. -/
structure AppState where
  table : List Row
  metrics : Metrics

/-- The four webhook outcomes; `label` is the metric-label string used by
main.py (lines 168, 179, 186, 200). -/
inductive Outcome where
  | created
  | duplicate
  | invalid_signature
  | validation_error
deriving DecidableEq, Repr

def Outcome.label : Outcome → String
  | .created => "created"
  | .duplicate => "duplicate"
  | .invalid_signature => "invalid_signature"
  | .validation_error => "validation_error"

/-- The environment of one webhook request.  `expectedSig` abstracts
`hmac.new(secret, raw, sha256).hexdigest()` of main.py:172-176 (no claim
depends on the HMAC internals); `parse` abstracts
`WebhookMessage.parse_raw` of main.py:184; `now` is the `created_at`
timestamp computed at main.py:190. -/
structure WebhookDeps where
  expectedSig : List Nat → String
  parse : List Nat → Except String Msg
  now : String

/-- The `POST /webhook` handler (main.py:153-209) with the backing store
reachable: missing/empty signature header → 401 with outcome
`invalid_signature`; HMAC mismatch (`hmac.compare_digest`, an equality
with constant-time execution) → 401 with outcome `invalid_signature`;
body that fails `WebhookMessage` validation → 422 with outcome
`validation_error`; otherwise the row is inserted and the store's result
string (`"created"`/`"duplicate"`) becomes the outcome.  Every branch
records exactly one outcome via `inc_webhook`. -/
def webhook (deps : WebhookDeps) (st : AppState) (raw : List Nat)
    (x_signature : Option String) : AppState × Outcome :=
  if !(pyTruthy x_signature) then
    ({ st with metrics := inc_webhook "invalid_signature" st.metrics }, .invalid_signature)
  else if !(deps.expectedSig raw == x_signature.getD "") then
    ({ st with metrics := inc_webhook "invalid_signature" st.metrics }, .invalid_signature)
  else
    match deps.parse raw with
    | .error _ =>
      ({ st with metrics := inc_webhook "validation_error" st.metrics }, .validation_error)
    | .ok msg =>
      let p := insert_message_ok st.table
        ⟨msg.message_id, some msg.from_, some msg.to_, some msg.ts, msg.text, some deps.now⟩
      ({ table := p.1, metrics := inc_webhook p.2 st.metrics },
       if p.2 == "created" then .created else .duplicate)

/-- Concrete valid message row used by the witnesses. -/
def mw : Row :=
  ⟨"m1", "+919876543210", "+14155550100", "2025-01-15T10:00:00Z",
   some "Hello", "2025-01-15T10:00:01Z"⟩

/-- Concrete webhook environment used by the witnesses. -/
def depsW : WebhookDeps :=
  ⟨fun _ => "aa", fun _ => .error "invalid", "2025-01-15T10:00:01Z"⟩

/-- Concrete initial application state used by the witnesses. -/
def st0 : AppState := ⟨[], initMetrics⟩

/-- The total of the three latency buckets. -/
def bucketSum (m : Metrics) : Nat :=
  m.latency_buckets "100" + m.latency_buckets "500" + m.latency_buckets "+Inf"

/-- A concrete table with two senders of equal message count, used to
exhibit the unspecified tie order of the top-senders query. -/
def tbl2 : List Row :=
  [⟨"a", "+1", "+9", "2025-01-15T08:00:00Z", none, "c1"⟩,
   ⟨"b", "+2", "+9", "2025-01-15T09:00:00Z", none, "c2"⟩]

/-!
Theorems about the embedded operations.
-/

/-- Claim C1: inserting a fully validated message whose `message_id` is not yet
in the table returns `created` and appends exactly that one row; every
subsequent insert with the same `message_id` returns `duplicate` and
leaves the table unchanged, so exactly one row with that key exists. -/
theorem C1_insert_idempotent (tbl : List Row) (r : Row)
    (hfresh : ∀ r2 ∈ tbl, r2.message_id ≠ r.message_id) :
    insert_message true tbl (rawOfRow r) = .ok (tbl ++ [r], "created") ∧
    (∀ r2 : Row, r2.message_id = r.message_id →
      insert_message true (tbl ++ [r]) (rawOfRow r2) = .ok (tbl ++ [r], "duplicate")) ∧
    countId (tbl ++ [r]) r.message_id = 1 := by
  have hpk : pkViolation tbl (rawOfRow r) = false := by
    simp only [pkViolation, rawOfRow, List.any_eq_false]
    intro a ha
    simpa using hfresh a ha
  have hnn : notNullViolation (rawOfRow r) = false := rfl
  have hint : integrityViolation tbl (rawOfRow r) = false := by
    simp [integrityViolation, hpk, hnn]
  have hrow : rowOfRaw (rawOfRow r) = r := rfl
  refine ⟨?_, ?_, ?_⟩
  · simp [insert_message, insert_message_ok, hint, hrow]
  · intro r2 h2
    have hpk2 : pkViolation (tbl ++ [r]) (rawOfRow r2) = true := by
      simp only [pkViolation, rawOfRow, List.any_eq_true]
      exact ⟨r, List.mem_append_right _ (List.mem_singleton_self r), by simp [h2]⟩
    have hint2 : integrityViolation (tbl ++ [r]) (rawOfRow r2) = true := by
      simp [integrityViolation, hpk2]
    simp [insert_message, insert_message_ok, hint2]
  · have h0 : countId tbl r.message_id = 0 := by
      simp only [countId, List.countP_eq_zero]
      intro a ha
      simpa using hfresh a ha
    simp only [countId, List.countP_append] at *
    simp [h0, List.countP_cons]

/-- Witness for C1 at a concrete input. -/
theorem C1_insert_idempotent_witness :
    insert_message true [] (rawOfRow mw) = .ok ([] ++ [mw], "created") ∧
    insert_message true ([] ++ [mw]) (rawOfRow mw) = .ok ([] ++ [mw], "duplicate") ∧
    countId ([] ++ [mw]) mw.message_id = 1 :=
  ⟨(C1_insert_idempotent [] mw (by simp)).1,
   (C1_insert_idempotent [] mw (by simp)).2.1 mw rfl,
   (C1_insert_idempotent [] mw (by simp)).2.2⟩

/-- Claim C9: `insert_message` maps every backing-store integrity violation
(duplicate primary key or a NULL in a NOT NULL column) to `"duplicate"`;
a non-integrity store failure propagates to the caller uncaught; and for
a validated tuple the only possible results are `"created"` (appending
the row) and `"duplicate"`, with `"created"` guaranteed when the key is
fresh. -/
theorem C9_insert_error_mapping (storeUp : Bool) (tbl : List Row) (m : RawInsert) :
    (storeUp = true → integrityViolation tbl m = true →
      insert_message storeUp tbl m = .ok (tbl, "duplicate")) ∧
    (storeUp = true → m.from_msisdn = none →
      insert_message storeUp tbl m = .ok (tbl, "duplicate")) ∧
    (storeUp = false → insert_message storeUp tbl m = .error .unavailable) ∧
    (storeUp = true → notNullViolation m = false →
      (insert_message storeUp tbl m = .ok (tbl ++ [rowOfRaw m], "created") ∨
       insert_message storeUp tbl m = .ok (tbl, "duplicate"))) ∧
    (storeUp = true → notNullViolation m = false → pkViolation tbl m = false →
      insert_message storeUp tbl m = .ok (tbl ++ [rowOfRaw m], "created")) := by
  refine ⟨?_, ?_, ?_, ?_, ?_⟩
  · intro hup hint
    simp [insert_message, insert_message_ok, hup, hint]
  · intro hup hnull
    have hint : integrityViolation tbl m = true := by
      simp [integrityViolation, notNullViolation, hnull]
    simp [insert_message, insert_message_ok, hup, hint]
  · intro hdown
    simp [insert_message, hdown]
  · intro hup hnn
    by_cases hpk : pkViolation tbl m = true
    · exact Or.inr (by simp [insert_message, insert_message_ok, integrityViolation, hup, hpk])
    · refine Or.inl ?_
      simp only [Bool.not_eq_true] at hpk
      simp [insert_message, insert_message_ok, integrityViolation, hup, hpk, hnn]
  · intro hup hnn hpk
    simp [insert_message, insert_message_ok, integrityViolation, hup, hpk, hnn]

/-- Witness for C9 at concrete inputs: a NULL `from_msisdn` yields
`"duplicate"`, an unreachable store propagates the failure, and a fresh
validated tuple yields `"created"`. -/
theorem C9_insert_error_mapping_witness :
    insert_message true [] ⟨"m9", none, some "+14155550100", some "2025-01-15T10:00:00Z",
        none, some "2025-01-15T10:00:01Z"⟩ = .ok ([], "duplicate") ∧
    insert_message false [] (rawOfRow mw) = .error .unavailable ∧
    insert_message true [] (rawOfRow mw) = .ok ([] ++ [rowOfRaw (rawOfRow mw)], "created") :=
  ⟨(C9_insert_error_mapping true [] _).2.1 rfl rfl,
   (C9_insert_error_mapping false [] (rawOfRow mw)).2.2.1 rfl,
   (C9_insert_error_mapping true [] (rawOfRow mw)).2.2.2.2 rfl rfl rfl⟩

/-- Claim C10: an empty-string `from`, `since` or `q` argument is treated
exactly like an absent filter (Python truthiness in storage.py:114-149),
so the returned page and total are identical. -/
theorem C10_empty_filter_is_no_filter (tbl : List Row) (limit offset : Nat)
    (from_filter since q : Option String) :
    list_messages tbl limit offset (some "") since q
      = list_messages tbl limit offset none since q ∧
    list_messages tbl limit offset from_filter (some "") q
      = list_messages tbl limit offset from_filter none q ∧
    list_messages tbl limit offset from_filter since (some "")
      = list_messages tbl limit offset from_filter since none := by
  refine ⟨rfl, rfl, rfl⟩

/-- Claim C4: `total` does not depend on `limit`/`offset`; the page length is
`min limit (total - offset)` (truncated subtraction); and an offset at or
beyond the end of the filtered result yields an empty page. -/
theorem C4_pagination (tbl : List Row) (limit offset : Nat)
    (from_filter since q : Option String) (hlim : 1 ≤ limit) :
    (∀ limit2 offset2 : Nat,
      (list_messages tbl limit2 offset2 from_filter since q).2
        = (list_messages tbl limit offset from_filter since q).2) ∧
    (list_messages tbl limit offset from_filter since q).1.length
      = min limit ((list_messages tbl limit offset from_filter since q).2 - offset) ∧
    ((list_messages tbl limit offset from_filter since q).2 ≤ offset →
      (list_messages tbl limit offset from_filter since q).1 = []) := by
  refine ⟨fun _ _ => rfl, ?_, ?_⟩
  · simp [list_messages]
  · intro h
    simp only [list_messages] at h ⊢
    rw [List.drop_eq_nil_of_le h, List.take_nil]

/-- The single-row table evaluations used by the witnesses: with one
stored row every component of `list_messages` computes by `simp`. -/
theorem qRows_single : qRows [mw] none none none = [mw] := by
  simp [qRows, sqlRows, sortRows, pyTruthy, sqlMatch]

/-- Witness for C4 at a concrete input. -/
theorem C4_pagination_witness :
    (list_messages [mw] 7 0 none none none).2 = (list_messages [mw] 1 3 none none none).2 ∧
    (list_messages [mw] 1 3 none none none).1.length
      = min 1 ((list_messages [mw] 1 3 none none none).2 - 3) ∧
    (list_messages [mw] 1 3 none none none).1 = [] :=
  ⟨(C4_pagination [mw] 1 3 none none none (by decide)).1 7 0,
   (C4_pagination [mw] 1 3 none none none (by decide)).2.1,
   (C4_pagination [mw] 1 3 none none none (by decide)).2.2
     (by simp [list_messages, qRows_single])⟩

/-- The store's result string is always `"created"` or `"duplicate"`. -/
theorem insert_message_ok_snd (tbl : List Row) (m : RawInsert) :
    (insert_message_ok tbl m).2 = "created" ∨ (insert_message_ok tbl m).2 = "duplicate" := by
  unfold insert_message_ok
  split <;> simp

/-- `inc_webhook` bumps the counter at its own label. -/
theorem inc_webhook_self (res : String) (m : Metrics) :
    (inc_webhook res m).webhook_requests res = m.webhook_requests res + 1 := by
  simp [inc_webhook]

/-- `inc_webhook` leaves every other counter unchanged. -/
theorem inc_webhook_other (res s : String) (m : Metrics) (h : s ≠ res) :
    (inc_webhook res m).webhook_requests s = m.webhook_requests s := by
  simp [inc_webhook, h]

/-- Every webhook branch updates the metrics by exactly one `inc_webhook`
call keyed by the label of the returned outcome (main.py lines 168, 179,
186, 200). -/
theorem webhook_metrics_eq (deps : WebhookDeps) (st : AppState) (raw : List Nat)
    (x_signature : Option String) :
    (webhook deps st raw x_signature).1.metrics
      = inc_webhook ((webhook deps st raw x_signature).2).label st.metrics := by
  unfold webhook
  by_cases h1 : pyTruthy x_signature = true
  · by_cases h2 : (deps.expectedSig raw == x_signature.getD "") = true
    · cases hp : deps.parse raw with
      | error e => simp [h1, h2, hp, Outcome.label]
      | ok msg =>
        rcases insert_message_ok_snd st.table
            ⟨msg.message_id, some msg.from_, some msg.to_, some msg.ts, msg.text,
             some deps.now⟩ with hc | hd
        · simp [h1, h2, hp, hc, Outcome.label]
        · simp [h1, h2, hp, hd, Outcome.label]
    · simp [h1, h2, Outcome.label]
  · simp [h1, Outcome.label]

/-- The webhook only ever touches the table through `insert_message_ok`
on the accepted path; rejected branches return the state's table as is. -/
theorem webhook_table_rejected (deps : WebhookDeps) (st : AppState) (raw : List Nat)
    (x_signature : Option String)
    (h : (webhook deps st raw x_signature).2 = .invalid_signature ∨
         (webhook deps st raw x_signature).2 = .validation_error) :
    (webhook deps st raw x_signature).1.table = st.table := by
  unfold webhook at h ⊢
  by_cases h1 : pyTruthy x_signature = true
  · by_cases h2 : (deps.expectedSig raw == x_signature.getD "") = true
    · cases hp : deps.parse raw with
      | error e => simp [h1, h2, hp]
      | ok msg =>
        exfalso
        rcases insert_message_ok_snd st.table
            ⟨msg.message_id, some msg.from_, some msg.to_, some msg.ts, msg.text,
             some deps.now⟩ with hc | hd
        · simp [h1, h2, hp, hc] at h
        · simp [h1, h2, hp, hd] at h
    · simp [h1, h2]
  · simp [h1]

/-- Claim C2: a webhook request rejected with `invalid_signature` (header
absent/empty or HMAC mismatch) or `validation_error` (body fails
`WebhookMessage` validation) leaves the stored messages table exactly as
it was: rejected requests never insert, modify or delete any row. -/
theorem C2_rejected_request_no_mutation (deps : WebhookDeps) (st : AppState)
    (raw : List Nat) (x_signature : Option String)
    (h : (webhook deps st raw x_signature).2 = .invalid_signature ∨
         (webhook deps st raw x_signature).2 = .validation_error) :
    (webhook deps st raw x_signature).1.table = st.table :=
  webhook_table_rejected deps st raw x_signature h

/-- Witness for C2: a request with no signature header is rejected and
the table is untouched. -/
theorem C2_rejected_request_no_mutation_witness :
    (webhook depsW st0 [] none).1.table = st0.table :=
  C2_rejected_request_no_mutation depsW st0 [] none (Or.inl rfl)

/-- Claim C7: every webhook request increments exactly one webhook-outcome
counter — the one keyed by the label of the outcome it resolves to
(`created`, `duplicate`, `invalid_signature` or `validation_error`) —
and every other webhook-outcome counter is unchanged. -/
theorem C7_outcome_always_recorded (deps : WebhookDeps) (st : AppState)
    (raw : List Nat) (x_signature : Option String) :
    (webhook deps st raw x_signature).1.metrics.webhook_requests
        ((webhook deps st raw x_signature).2).label
      = st.metrics.webhook_requests ((webhook deps st raw x_signature).2).label + 1 ∧
    ∀ s : String, s ≠ ((webhook deps st raw x_signature).2).label →
      (webhook deps st raw x_signature).1.metrics.webhook_requests s
        = st.metrics.webhook_requests s := by
  refine ⟨?_, ?_⟩
  · rw [webhook_metrics_eq]
    exact inc_webhook_self _ _
  · intro s hs
    rw [webhook_metrics_eq]
    exact inc_webhook_other _ _ _ hs

/-- Witness for C7: the rejected request of `C2`'s witness records one
`invalid_signature` outcome and leaves the `created` counter unchanged. -/
theorem C7_outcome_always_recorded_witness :
    (webhook depsW st0 [] none).1.metrics.webhook_requests
        ((webhook depsW st0 [] none).2).label
      = st0.metrics.webhook_requests ((webhook depsW st0 [] none).2).label + 1 ∧
    (webhook depsW st0 [] none).1.metrics.webhook_requests "created"
      = st0.metrics.webhook_requests "created" :=
  ⟨(C7_outcome_always_recorded depsW st0 [] none).1,
   (C7_outcome_always_recorded depsW st0 [] none).2 "created" (by decide)⟩

/-- Each `observe_latency` call adds exactly one observation to the
bucket total. -/
theorem bucketSum_observe (ms : ℚ) (m : Metrics) :
    bucketSum (observe_latency ms m) = bucketSum m + 1 := by
  unfold bucketSum observe_latency latencyBucket
  by_cases h1 : ms ≤ 100
  · simp [h1]
    omega
  · by_cases h2 : ms ≤ 500
    · simp [h1, h2]
      omega
    · simp [h1, h2]
      omega

/-- Folding `observe_latency` over a list adds its length to the bucket
total. -/
theorem bucketSum_foldl (obs : List ℚ) (m : Metrics) :
    bucketSum (obs.foldl (fun s x => observe_latency x s) m) = bucketSum m + obs.length := by
  induction obs generalizing m with
  | nil => simp
  | cons a t ih =>
    simp only [List.foldl_cons, List.length_cons, ih, bucketSum_observe]
    omega

/-- Claim C8: `observe_latency` increments exactly one of the three mutually
exclusive buckets chosen by the thresholds 100 and 500, and the rendered
latency lines are cumulative: `le="100"` ≤ `le="500"` ≤ `le="+Inf"`, the
`le="+Inf"` line equals the total number of observations, and the
unlabeled count line equals the `le="+Inf"` line. -/
theorem C8_latency_histogram (m : Metrics) (ms : ℚ) (key : String) (obs : List ℚ) :
    ((observe_latency ms m).latency_buckets key
      = m.latency_buckets key + (if key = latencyBucket ms then 1 else 0)) ∧
    (ms ≤ 100 → latencyBucket ms = "100") ∧
    (100 < ms → ms ≤ 500 → latencyBucket ms = "500") ∧
    (500 < ms → latencyBucket ms = "+Inf") ∧
    (render_latency (foldObserve obs)).1 ≤ (render_latency (foldObserve obs)).2.1 ∧
    (render_latency (foldObserve obs)).2.1 ≤ (render_latency (foldObserve obs)).2.2.1 ∧
    (render_latency (foldObserve obs)).2.2.1 = obs.length ∧
    (render_latency (foldObserve obs)).2.2.2 = (render_latency (foldObserve obs)).2.2.1 := by
  refine ⟨?_, ?_, ?_, ?_, ?_, ?_, ?_, rfl⟩
  · simp only [observe_latency]
    split <;> simp
  · intro h
    simp [latencyBucket, h]
  · intro h1 h2
    rw [latencyBucket, if_neg (by linarith), if_pos h2]
  · intro h
    rw [latencyBucket, if_neg (by linarith), if_neg (by linarith)]
  · simp [render_latency]
  · simp [render_latency]
  · have h := bucketSum_foldl obs initMetrics
    have h0 : bucketSum initMetrics = 0 := rfl
    rw [h0] at h
    simp only [bucketSum] at h
    simp only [render_latency, foldObserve]
    omega

/-- `rowLe` is total: SQLite's ORDER BY comparator always ranks one row
before the other. -/
theorem rowLe_total (a b : Row) : rowLe a b ∨ rowLe b a := by
  rcases lt_trichotomy a.ts b.ts with h | h | h
  · exact Or.inl (Or.inl h)
  · rcases le_total a.message_id b.message_id with h2 | h2
    · exact Or.inl (Or.inr ⟨h, h2⟩)
    · exact Or.inr (Or.inr ⟨h.symm, h2⟩)
  · exact Or.inr (Or.inl h)

/-- `rowLe` is transitive. -/
theorem rowLe_trans (a b c : Row) (hab : rowLe a b) (hbc : rowLe b c) : rowLe a c := by
  rcases hab with h1 | ⟨h1, h1m⟩ <;> rcases hbc with h2 | ⟨h2, h2m⟩
  · exact Or.inl (h1.trans h2)
  · exact Or.inl (h2 ▸ h1)
  · exact Or.inl (h1 ▸ h2)
  · exact Or.inr ⟨h1.trans h2, h1m.trans h2m⟩

/-- Two rows each ranked no later than the other agree on the sort key. -/
theorem rowLe_antisymm_key {a b : Row} (hab : rowLe a b) (hba : rowLe b a) :
    a.ts = b.ts ∧ a.message_id = b.message_id := by
  rcases hab with h1 | ⟨h1, h1m⟩ <;> rcases hba with h2 | ⟨h2, h2m⟩
  · exact absurd h2 (lt_asymm h1)
  · exact absurd h1 (h2 ▸ lt_irrefl _)
  · exact absurd h2 (h1 ▸ lt_irrefl _)
  · exact ⟨h1, le_antisymm h1m h2m⟩

/-- `sortRows` permutes its input (the SELECT returns all matching rows). -/
theorem sortRows_perm (l : List Row) : List.Perm (sortRows l) l :=
  List.mergeSort_perm l _

/-- `sortRows` sorts by `(ts, message_id)` ascending. -/
theorem sortRows_sorted (l : List Row) : (sortRows l).Pairwise rowLe := by
  have h := List.sorted_mergeSort
    (fun a b c hab hbc =>
      decide_eq_true (rowLe_trans a b c (of_decide_eq_true hab) (of_decide_eq_true hbc)))
    (fun a b => by
      rcases rowLe_total a b with h | h
      · simp [decide_eq_true h]
      · simp [decide_eq_true h])
    l
  exact h.imp (fun hab => of_decide_eq_true hab)

/-- With pairwise-distinct `message_id`s (the primary key), the sorted
permutation is unique: `(ts, message_id)` is a total order without ties,
so every sorted rearrangement of the same rows is the same list. -/
theorem sorted_perm_eq_of_nodup_keys :
    ∀ l1 l2 : List Row, List.Perm l1 l2 → l1.Pairwise rowLe → l2.Pairwise rowLe →
      (l1.map Row.message_id).Nodup → l1 = l2
  | [], l2, hp, _, _, _ => (hp.symm.eq_nil).symm ▸ rfl
  | a :: t1, l2, hp, hs1, hs2, hnd => by
    cases l2 with
    | nil => exact absurd hp.eq_nil (by simp)
    | cons b t2 =>
      have hab : a = b := by
        have hbmem : b ∈ a :: t1 := hp.mem_iff.2 (List.mem_cons_self b t2)
        rcases List.mem_cons.1 hbmem with hb | hb
        · exact hb.symm
        · have hamem : a ∈ b :: t2 := hp.mem_iff.1 (List.mem_cons_self a t1)
          rcases List.mem_cons.1 hamem with ha | ha
          · exact ha
          · have h1 : rowLe a b := (List.pairwise_cons.1 hs1).1 b hb
            have h2 : rowLe b a := (List.pairwise_cons.1 hs2).1 a ha
            have hkey := (rowLe_antisymm_key h1 h2).2
            exfalso
            have : a.message_id ∈ t1.map Row.message_id :=
              List.mem_map.2 ⟨b, hb, hkey.symm⟩
            exact (List.nodup_cons.1 hnd).1 this
      subst hab
      have htail := hp.cons_inv
      have := sorted_perm_eq_of_nodup_keys t1 t2 htail
        (List.pairwise_cons.1 hs1).2 (List.pairwise_cons.1 hs2).2
        (List.nodup_cons.1 hnd).2
      rw [this]

/-- With no filters the SQL WHERE clause is empty and every row matches. -/
theorem filter_none_none (tbl : List Row) : tbl.filter (sqlMatch none none) = tbl := by
  simp [sqlMatch, pyTruthy]

/-- Claim C5: with no filters, `list_messages` serves a page of the unique
permutation of the table sorted by `(timestamp, message_id)` ascending;
under the primary-key invariant (pairwise-distinct `message_id`s) that
sorted order is a deterministic total order, so repeated calls over
unchanged data return the same sequence. -/
theorem C5_ordering_deterministic (tbl : List Row) (limit offset : Nat)
    (hkeys : (tbl.map Row.message_id).Nodup) :
    (list_messages tbl limit offset none none none).2 = tbl.length ∧
    (list_messages tbl limit offset none none none).1
      = ((sortRows tbl).drop offset).take limit ∧
    List.Perm (sortRows tbl) tbl ∧
    (sortRows tbl).Pairwise rowLe ∧
    (∀ l : List Row, List.Perm l tbl → l.Pairwise rowLe → l = sortRows tbl) := by
  have hq : qRows tbl none none none = sortRows tbl := by
    simp [qRows, sqlRows, pyTruthy, filter_none_none]
  refine ⟨?_, ?_, sortRows_perm tbl, sortRows_sorted tbl, ?_⟩
  · simp only [list_messages, hq]
    exact (sortRows_perm tbl).length_eq
  · simp only [list_messages, hq]
  · intro l hlp hls
    have hlkeys : (l.map Row.message_id).Nodup :=
      ((hlp.map Row.message_id).nodup_iff).2 hkeys
    exact sorted_perm_eq_of_nodup_keys l (sortRows tbl)
      (hlp.trans (sortRows_perm tbl).symm) hls (sortRows_sorted tbl) hlkeys

/-- Witness for C5 at a concrete single-row table. -/
theorem C5_ordering_deterministic_witness :
    (list_messages [mw] 50 0 none none none).2 = [mw].length ∧
    List.Perm (sortRows [mw]) [mw] ∧
    [mw] = sortRows [mw] :=
  ⟨(C5_ordering_deterministic [mw] 50 0 (by simp)).1,
   (C5_ordering_deterministic [mw] 50 0 (by simp)).2.2.1,
   (C5_ordering_deterministic [mw] 50 0 (by simp)).2.2.2.2 [mw] (List.Perm.refl _)
     (by simp)⟩

/-- `startsWithChars` decides prefix decomposition. -/
theorem startsWithChars_iff :
    ∀ needle hay : List Char,
      startsWithChars needle hay = true ↔ ∃ rest, hay = needle ++ rest
  | [], hay => by simp [startsWithChars]
  | a :: as, [] => by simp [startsWithChars]
  | a :: as, b :: bs => by
    simp only [startsWithChars, Bool.and_eq_true, beq_iff_eq,
      startsWithChars_iff as bs, List.cons_append, List.cons.injEq]
    constructor
    · rintro ⟨rfl, rest, rfl⟩
      exact ⟨rest, rfl, rfl⟩
    · rintro ⟨rest, rfl, rfl⟩
      exact ⟨rfl, rest, rfl⟩

/-- `containsChars` decides the Python `in` substring relation:
a contiguous-run decomposition of the haystack exists. -/
theorem containsChars_iff :
    ∀ needle hay : List Char,
      containsChars needle hay = true ↔ ∃ pre post, hay = pre ++ needle ++ post
  | needle, [] => by
    cases needle <;> simp [containsChars, List.isEmpty]
  | needle, b :: bs => by
    simp only [containsChars, Bool.or_eq_true, startsWithChars_iff,
      containsChars_iff needle bs]
    constructor
    · rintro (⟨rest, hr⟩ | ⟨pre, post, hr⟩)
      · exact ⟨[], rest, by simpa using hr⟩
      · exact ⟨b :: pre, post, by simp [hr]⟩
    · rintro ⟨pre, post, hsplit⟩
      cases pre with
      | nil =>
        exact Or.inl ⟨post, by simpa using hsplit⟩
      | cons p pre2 =>
        simp only [List.cons_append] at hsplit
        injection hsplit with h1 h2
        exact Or.inr ⟨pre2, post, h2⟩

/-- A non-empty string stays non-empty under character-wise lowering. -/
theorem pyLower_data_ne_nil (q : String) (hq : q ≠ "") : (pyLower q).data ≠ [] := by
  cases q with
  | mk l =>
    cases l with
    | nil => exact absurd rfl hq
    | cons c cs => simp [pyLower]

/-- Claim C6: with a non-empty `q`, `list_messages` keeps exactly the rows whose
lowered text contains the lowered query as a contiguous substring; the
filter is conjunctive with the SQL-side `from`/`since` filters; `total`
counts rows after the substring filter; and a row with no text never
matches. -/
theorem C6_substring_search (tbl : List Row) (limit offset : Nat)
    (from_filter since : Option String) (q : String) (hq : q ≠ "") :
    (list_messages tbl limit offset from_filter since (some q)).2
      = tbl.countP (fun r => sqlMatch from_filter since r && qMatch q r) ∧
    (∀ r ∈ (list_messages tbl limit offset from_filter since (some q)).1,
      sqlMatch from_filter since r = true ∧ qMatch q r = true) ∧
    (∀ r : Row, qMatch q r = true ↔
      ∃ pre post, (pyLower (r.text.getD "")).data = pre ++ (pyLower q).data ++ post) ∧
    (∀ r : Row, r.text = none → qMatch q r = false) := by
  have htr : pyTruthy (some q) = true := by
    simpa [pyTruthy] using hq
  have hqr : qRows tbl from_filter since (some q)
      = (sqlRows tbl from_filter since).filter (qMatch q) := by
    simp [qRows, htr]
  refine ⟨?_, ?_, ?_, ?_⟩
  · simp only [list_messages, hqr, sqlRows]
    rw [← List.countP_eq_length_filter,
      List.Perm.countP_eq (qMatch q) (sortRows_perm (tbl.filter (sqlMatch from_filter since))),
      List.countP_filter]
    exact List.countP_congr (fun r _ => by rw [Bool.and_comm])
  · intro r hr
    simp only [list_messages, hqr] at hr
    have hr2 := List.mem_of_mem_drop (List.mem_of_mem_take hr)
    have hr3 := List.mem_filter.1 hr2
    refine ⟨?_, hr3.2⟩
    have hr4 : r ∈ tbl.filter (sqlMatch from_filter since) :=
      (sortRows_perm _).subset (by simpa [sqlRows] using hr3.1)
    exact (List.mem_filter.1 hr4).2
  · intro r
    exact containsChars_iff (pyLower q).data (pyLower (r.text.getD "")).data
  · intro r hnone
    by_contra hc
    rw [Bool.not_eq_false] at hc
    have hc2 : containsChars (pyLower q).data (pyLower (r.text.getD "")).data = true := hc
    rcases (containsChars_iff _ _).1 hc2 with ⟨pre, post, hsplit⟩
    rw [hnone] at hsplit
    have hnil : (pyLower ((none : Option String).getD "")).data = ([] : List Char) := rfl
    rw [hnil] at hsplit
    have h1 := List.append_eq_nil.1 hsplit.symm
    have h2 := List.append_eq_nil.1 h1.1
    exact pyLower_data_ne_nil q hq h2.2

/-- Witness for C6 at a concrete input: `"hello"` matches the stored
`"Hello"` text, and a row with no text never matches. -/
theorem C6_substring_search_witness :
    (list_messages [mw] 50 0 none none (some "hello")).2
      = [mw].countP (fun r => sqlMatch none none r && qMatch "hello" r) ∧
    qMatch "hello" ⟨"m2", "+1", "+2", "t", none, "c"⟩ = false :=
  ⟨(C6_substring_search [mw] 50 0 none none "hello" (by decide)).1,
   (C6_substring_search [mw] 50 0 none none "hello" (by decide)).2.2.2
     ⟨"m2", "+1", "+2", "t", none, "c"⟩ rfl⟩

/-- Witness for C8: concrete observations land in the expected buckets
and the rendered `+Inf` line counts all four observations. -/
theorem C8_latency_histogram_witness :
    latencyBucket 50 = "100" ∧ latencyBucket 300 = "500" ∧
    latencyBucket 600 = "+Inf" ∧
    (render_latency (foldObserve [30, 200, 600, 50])).2.2.1 = 4 :=
  ⟨(C8_latency_histogram initMetrics 50 "100" []).2.1 (by norm_num),
   (C8_latency_histogram initMetrics 300 "500" []).2.2.1 (by norm_num) (by norm_num),
   (C8_latency_histogram initMetrics 600 "+Inf" []).2.2.2.1 (by norm_num),
   (C8_latency_histogram initMetrics 600 "+Inf" [30, 200, 600, 50]).2.2.2.2.2.2.1⟩

/-- The grouped counts of the concrete two-sender table. -/
theorem senderCounts_tbl2 : senderCounts tbl2 = [("+1", 1), ("+2", 1)] := by
  decide

/-- Claim C3 counterexample: with two senders of equal count, the output
`[("+2", 1), ("+1", 1)]` is an admissible result of the top-senders query
(`ORDER BY c DESC` says nothing about ties), yet it is not ordered by
sender ascending within the tie, so `stats` does not guarantee the
claimed tie-breaking order. -/
theorem C3_top_senders_counterexample :
    topSendersAdmissible tbl2 [("+2", 1), ("+1", 1)] ∧
    [("+2", 1), ("+1", 1)] ≠ specTopSenders tbl2 := by
  constructor
  · refine ⟨[("+2", 1), ("+1", 1)], ?_, ?_, rfl⟩
    · rw [senderCounts_tbl2]
      exact List.Perm.swap ("+1", 1) ("+2", 1) []
    · simp [countsSortedDesc]
  · have hle : ("+1" : String) ≤ "+2" := by
      rw [String.le_iff_toList_le]
      decide
    have hsorted : List.Pairwise
        (fun a b : String × Nat =>
          (decide (b.2 < a.2) || (decide (a.2 = b.2) && decide (a.1 ≤ b.1))) = true)
        [("+1", 1), ("+2", 1)] := by
      constructor
      · intro b hb
        simp only [List.mem_singleton] at hb
        subst hb
        simp only [Bool.or_eq_true, Bool.and_eq_true, decide_eq_true_eq]
        exact Or.inr ⟨trivial, hle⟩
      · simp
    have hspec : specTopSenders tbl2 = [("+1", 1), ("+2", 1)] := by
      unfold specTopSenders
      rw [senderCounts_tbl2, List.mergeSort_of_sorted hsorted]
      rfl
    rw [hspec]
    decide

/-- Claim C3, amended: every admissible result of the top-senders query lists
at most 10 of the grouped `(sender, count)` pairs with counts
non-increasing, every listed pair is a true grouped count, and no omitted
sender outcounts a listed one; the relative order of senders with equal
counts is unspecified (the SQL has no secondary sort key). -/
theorem C3_top_senders_amended (tbl : List Row) (out : List (String × Nat))
    (h : topSendersAdmissible tbl out) :
    countsSortedDesc out ∧
    out.length = min 10 (senderCounts tbl).length ∧
    (∀ p ∈ out, p ∈ senderCounts tbl) ∧
    (∀ p ∈ out, ∀ s ∈ senderCounts tbl, s ∉ out → s.2 ≤ p.2) := by
  obtain ⟨l, hperm, hsort, rfl⟩ := h
  refine ⟨?_, ?_, ?_, ?_⟩
  · exact hsort.sublist (List.take_sublist 10 l)
  · rw [List.length_take, hperm.length_eq]
  · intro p hp
    exact hperm.subset (List.mem_of_mem_take hp)
  · intro p hp s hs hns
    have hsl : s ∈ l := hperm.mem_iff.2 hs
    have hsplit : (l.take 10 ++ l.drop 10).Pairwise (fun a b => b.2 ≤ a.2) := by
      rw [List.take_append_drop]
      exact hsort
    have hsd : s ∈ l.drop 10 := by
      have : s ∈ l.take 10 ++ l.drop 10 := by
        rw [List.take_append_drop]
        exact hsl
      rcases List.mem_append.1 this with h2 | h2
      · exact absurd h2 hns
      · exact h2
    exact (List.pairwise_append.1 hsplit).2.2 p hp s hsd

/-- Witness for C3's amended statement at a concrete admissible output. -/
theorem C3_top_senders_amended_witness :
    countsSortedDesc [("+1", 1), ("+2", 1)] ∧
    ([("+1", 1), ("+2", 1)] : List (String × Nat)).length
      = min 10 (senderCounts tbl2).length :=
  ⟨(C3_top_senders_amended tbl2 [("+1", 1), ("+2", 1)]
      ⟨[("+1", 1), ("+2", 1)], by rw [senderCounts_tbl2],
       by simp [countsSortedDesc], rfl⟩).1,
   (C3_top_senders_amended tbl2 [("+1", 1), ("+2", 1)]
      ⟨[("+1", 1), ("+2", 1)], by rw [senderCounts_tbl2],
       by simp [countsSortedDesc], rfl⟩).2.1⟩

end Lyftr
